import Mathlib

/-!
Verification of the content-stream operation decoder of `sked` (src/main.rs).

The decoder (`impl TryFrom<lopdf::content::Operation> for Operation`) takes one
instruction — an operator name (a string) plus an ordered list of loosely typed
operands (`lopdf::Object` values) — and classifies it into a closed `Operation`
sum type, or fails with a `PdfParseError`.

Modelling conventions:
* Byte strings (`Vec<u8>`) are `List Nat` of byte values.
* A Rust `String` is represented by its UTF-8 byte content (a `List Nat`);
  `String::from_utf8` succeeds exactly on valid UTF-8 and then the resulting
  string's byte content is the input bytes, so success is byte identity.
* `f64` values are represented opaquely by `F64`: the decoder performs no
  floating-point arithmetic, it only passes `Real` operands through unchanged
  and converts `Integer` operands with `as f64` (constructor `F64.fromInt`);
  `F64.fromBits` stands for an arbitrary double handed over by the tokenizer.
* The `unimplemented!()` / `todo!()` arms of the source abort the process;
  this third outcome (besides `Ok` and `Err`) is the `DResult.panic` value.
-/

/-- Byte strings (`Vec<u8>` in the source) as lists of byte values. -/
abbrev Bytes := List Nat

/-- Opaque model of Rust `f64` values as they flow through the decoder.
`fromInt i` is the value of `(i as f64)` for an integer operand; `fromBits b`
stands for an arbitrary double produced by the tokenizer (identified by its
bit pattern, which is all the decoder ever forwards). -/
inductive F64 where
  | fromInt (i : Int)
  | fromBits (bits : Nat)
deriving DecidableEq

/-- The `StringFormat` tag carried by `lopdf::Object::String`. -/
inductive StringFormat where
  | literal
  | hexadecimal
deriving DecidableEq

/-- The operand value type (`lopdf::Object`), restricted to the shapes the
decoder distinguishes; every shape the decoder does not inspect further is
represented by `null`, `boolean`, or the container shapes, all of which fall
into the source's wildcard arms. -/
inductive Object where
  | null
  | boolean (b : Bool)
  | integer (i : Int)
  | real (r : F64)
  | name (bytes : Bytes)
  | string (bytes : Bytes) (fmt : StringFormat)
  | array (elems : List Object)

/-- The error enum `PdfParseError` of src/main.rs (lines 7-14). `Utf8` carries
the offending byte string (Rust's `FromUtf8Error` retains it). -/
inductive PdfParseError where
  | UnknownOperator (name : String)
  | MissingOperands
  | OperandType
  | Lopdf
  | Utf8 (bytes : Bytes)
deriving DecidableEq

/-- The closed `Operation` sum type of src/main.rs (lines 26-86). String-typed
fields keep the Rust `String`'s UTF-8 byte content. -/
inductive Operation where
  | BeginMarkedContentSequenceWithPropertyList
  | EndMarkedContentSequence
  | BeginTextObject
  | EndTextObject
  | SetColorSpaceForStrokingOperations
  | SetColorSpaceForNonstrokingOperations
  | SetColorForNonstrokingOperations
  | SetTextFontAndSize (name : Bytes) (size : F64)
  | SetCharacterSpacing (spacing : F64)
  | SetWordSpacing (spacing : F64)
  | SetTextMatrixAndTextLineMatrix (a b c d e f : F64)
  | ShowText (body : Bytes)
  | ShowTextAllowingIndividualGlyphPositioning (body : Bytes)
  | SaveGraphicsState
  | RestoreGraphicsState
  | MoveTextPosition (t_x t_y : F64)
  | MoveTextPositionAndSetLeading (t_x t_y : F64)
  | MoveToStartOfNextLine
  | AppendRectangleToPath (x y width height : F64)
  | FillPathUsingNonzeroWindingNumberRule
  | FillPathUsingNonzeroWindingNumberRuleObsolete
  | FillPathUsingEvenOddRule
  | SetClippingPathUsingNonzeroWindingNumberRule
  | EndPathWithoutFillingOrStroking
deriving DecidableEq

/-- Outcome of one `try_from` call: `Ok`, `Err`, or a process abort
(`unimplemented!()` in the `Tf` arm, `todo!()` in the `Td`/`TD` arms). -/
inductive DResult where
  | ok (op : Operation)
  | err (e : PdfParseError)
  | panic
deriving DecidableEq

/-- The local accessor `to_f64` of src/main.rs (lines 92-98): `Real` passes
through, `Integer` is converted with `as f64`, every other shape is `None`. -/
def to_f64 : Object → Option F64
  | .real x => some x
  | .integer x => some (.fromInt x)
  | _ => none

/-- `opds.get(i).map(to_f64).flatten()`: numeric extraction at position `i`. -/
def getNum (opds : List Object) (i : Nat) : Option F64 :=
  ((opds.get? i).map to_f64).join

/-- Is a byte a UTF-8 continuation byte (`0x80..=0xBF`)? -/
def utf8Cont (b : Nat) : Bool := 0x80 ≤ b && b ≤ 0xBF

/-- The UTF-8 validation automaton, per the standard table Rust's
`String::from_utf8` checks (core::str validation): 1-byte `00..7F`;
2-byte `C2..DF` + cont; 3-byte `E0 A0..BF cont`, `E1..EC cont cont`,
`ED 80..9F cont`, `EE..EF cont cont`; 4-byte `F0 90..BF cont cont`,
`F1..F3 cont cont cont`, `F4 80..8F cont cont`; everything else
(stray continuation bytes, `C0`/`C1` overlongs, `F5..FF`) invalid.
`need` counts continuation bytes still expected; the next one must lie
in `lo..hi`, later ones in `80..BF`. -/
def utf8Run : Bytes → Nat → Nat → Nat → Bool
  | [], need, _, _ => need == 0
  | b :: rest, 0, _, _ =>
    if b ≤ 0x7F then utf8Run rest 0 0 0
    else if 0xC2 ≤ b && b ≤ 0xDF then utf8Run rest 1 0x80 0xBF
    else if b = 0xE0 then utf8Run rest 2 0xA0 0xBF
    else if (0xE1 ≤ b && b ≤ 0xEC) || b = 0xEE || b = 0xEF then utf8Run rest 2 0x80 0xBF
    else if b = 0xED then utf8Run rest 2 0x80 0x9F
    else if b = 0xF0 then utf8Run rest 3 0x90 0xBF
    else if 0xF1 ≤ b && b ≤ 0xF3 then utf8Run rest 3 0x80 0xBF
    else if b = 0xF4 then utf8Run rest 3 0x80 0x8F
    else false
  | b :: rest, need + 1, lo, hi =>
    if lo ≤ b && b ≤ hi then utf8Run rest need 0x80 0xBF else false

/-- UTF-8 validity of a byte string: run the automaton from the initial
state. -/
def utf8Valid (bs : Bytes) : Bool := utf8Run bs 0 0 0

/-- `String::from_utf8(bytes.to_vec()).map_err(Into::into)`: yields the string
(whose byte content is exactly the input) on valid UTF-8, the `Utf8` parse
error otherwise. -/
def from_utf8 (bytes : Bytes) : Except PdfParseError Bytes :=
  if utf8Valid bytes then .ok bytes else .error (.Utf8 bytes)

/-- The per-element conversion in the `TJ` arm (src/main.rs lines 143-152):
strings decode as UTF-8, `Real`/`Integer` contribute the empty string, any
other shape is an `OperandType` error. -/
def tjElement : Object → Except PdfParseError Bytes
  | .string bytes _ => from_utf8 bytes
  | .real _ => .ok []
  | .integer _ => .ok []
  | _ => .error .OperandType

/-- The `TJ` body computation (src/main.rs lines 141-154): map `tjElement`
over the array, short-circuiting at the first error (Rust's
`collect::<Result<Vec<_>, _>>`), then concatenate. -/
def tjBody : List Object → Except PdfParseError Bytes
  | [] => .ok []
  | e :: rest =>
    match tjElement e with
    | .error er => .error er
    | .ok s =>
      match tjBody rest with
      | .error er => .error er
      | .ok ss => .ok (s ++ ss)

/-- The decoder `Operation::try_from` (src/main.rs lines 91-213). The source
is a single `match` on `(operator.as_str(), operands)` whose arms carry
mutually exclusive string literals on the operator and a wildcard or variable
on the operands, so it is rendered as the equivalent cascade of string tests
in source order, each arm's operand analysis translated literally. -/
def decode (op : String) (opds : List Object) : DResult :=
  if op = "BDC" then .ok .BeginMarkedContentSequenceWithPropertyList
  else if op = "EMC" then .ok .EndMarkedContentSequence
  else if op = "BT" then .ok .BeginTextObject
  else if op = "ET" then .ok .EndTextObject
  else if op = "CS" then .ok .SetColorSpaceForStrokingOperations
  else if op = "cs" then .ok .SetColorSpaceForNonstrokingOperations
  else if op = "scn" then .ok .SetColorForNonstrokingOperations
  else if op = "Tf" then
    match opds.get? 0, getNum opds 1 with
    | some (.name nm), some size => .ok (.SetTextFontAndSize nm size)
    | _, _ => .panic
  else if op = "Tc" then
    match getNum opds 0 with
    | some spacing => .ok (.SetCharacterSpacing spacing)
    | none => .err .OperandType
  else if op = "Tw" then
    match getNum opds 0 with
    | some spacing => .ok (.SetWordSpacing spacing)
    | none => .err .OperandType
  else if op = "Tm" then
    match getNum opds 0, getNum opds 1, getNum opds 2,
          getNum opds 3, getNum opds 4, getNum opds 5 with
    | some a, some b, some c, some d, some e, some f =>
        .ok (.SetTextMatrixAndTextLineMatrix a b c d e f)
    | _, _, _, _, _, _ => .err .OperandType
  else if op = "TJ" then
    match opds.get? 0 with
    | some (.array arr) =>
      match tjBody arr with
      | .ok body => .ok (.ShowTextAllowingIndividualGlyphPositioning body)
      | .error er => .err er
    | none => .ok (.ShowTextAllowingIndividualGlyphPositioning [])
    | some _ => .err .OperandType
  else if op = "Tj" then
    match opds.get? 0 with
    | some (.string bytes _) =>
      match from_utf8 bytes with
      | .ok body => .ok (.ShowText body)
      | .error er => .err er
    | _ => .err .OperandType
  else if op = "q" then .ok .SaveGraphicsState
  else if op = "Q" then .ok .RestoreGraphicsState
  else if op = "Td" then
    match getNum opds 0, getNum opds 1 with
    | some tx, some ty => .ok (.MoveTextPosition tx ty)
    | _, _ => .panic
  else if op = "TD" then
    match getNum opds 0, getNum opds 1 with
    | some tx, some ty => .ok (.MoveTextPositionAndSetLeading tx ty)
    | _, _ => .panic
  else if op = "T*" then .ok .MoveToStartOfNextLine
  else if op = "re" then
    match getNum opds 0, getNum opds 1, getNum opds 2, getNum opds 3 with
    | some x, some y, some w, some h => .ok (.AppendRectangleToPath x y w h)
    | _, _, _, _ => .err .OperandType
  else if op = "f" then .ok .FillPathUsingNonzeroWindingNumberRule
  else if op = "F" then .ok .FillPathUsingNonzeroWindingNumberRuleObsolete
  else if op = "f*" then .ok .FillPathUsingEvenOddRule
  else if op = "W" then .ok .SetClippingPathUsingNonzeroWindingNumberRule
  else if op = "n" then .ok .EndPathWithoutFillingOrStroking
  else .err (.UnknownOperator op)

/-- One raw instruction as handed to the decoder by the tokenizer. -/
abbrev Instruction := String × List Object

/-- The stream walker's decoding pass (src/main.rs lines 242-245): each
instruction of the stream is decoded independently, in order. -/
def decodeAll (instrs : List Instruction) : List DResult :=
  instrs.map (fun ins => decode ins.1 ins.2)

/-- The operator names appearing in the decoder's contract table, in source
order of their arms. -/
def knownOperators : List String :=
  ["BDC", "EMC", "BT", "ET", "CS", "cs", "scn", "Tf", "Tc", "Tw", "Tm",
   "TJ", "Tj", "q", "Q", "Td", "TD", "T*", "re", "f", "F", "f*", "W", "n"]

/-- Shape test used to state wrong-shape conditions for `Tj`. -/
def isStringObj : Object → Bool
  | .string _ _ => true
  | _ => false

/-- Shape test used to state wrong-shape conditions for `TJ`. -/
def isArrayObj : Object → Bool
  | .array _ => true
  | _ => false

/-- Shape test used to state wrong-shape conditions for `Tf`. -/
def isNameObj : Object → Bool
  | .name _ => true
  | _ => false

/-- Is an object one of the shapes a `TJ` array may contain (string literal or
number)? -/
def isStringOrNumber : Object → Bool
  | .string _ _ => true
  | .real _ => true
  | .integer _ => true
  | _ => false

/-- Every element of a `TJ` array is a string literal or a number. -/
def allStringOrNumber (arr : List Object) : Bool := arr.all isStringOrNumber

/-- Some element of a `TJ` array is a string literal whose bytes are not
valid UTF-8. -/
def hasInvalidString (arr : List Object) : Bool :=
  arr.any fun e =>
    match e with
    | .string bs _ => !utf8Valid bs
    | _ => false

/-- The body the spec prescribes for a well-formed `TJ` array: the in-order
concatenation of the string elements' bytes, numeric elements contributing
no text. -/
def tjSpecBody : List Object → Bytes
  | [] => []
  | .string bs _ :: rest => bs ++ tjSpecBody rest
  | _ :: rest => tjSpecBody rest

/-- A `TJ` array all of whose elements are valid-UTF-8 string literals or
numbers. -/
def tjWellFormed : List Object → Bool
  | [] => true
  | .string bs _ :: rest => utf8Valid bs && tjWellFormed rest
  | .real _ :: rest => tjWellFormed rest
  | .integer _ :: rest => tjWellFormed rest
  | _ :: _ => false

/-- Does a decode outcome equal `Err(MissingOperands)`? -/
def isMissingOperandsErr : DResult → Bool
  | .err .MissingOperands => true
  | _ => false

/-- Does a decode outcome equal `Err(OperandType)`? -/
def isOperandTypeErr : DResult → Bool
  | .err .OperandType => true
  | _ => false

/-- Is a decode outcome the process-abort outcome? -/
def isPanicRes : DResult → Bool
  | .panic => true
  | _ => false

lemma getNum_cons_zero (x : Object) (rest : List Object) :
    getNum (x :: rest) 0 = to_f64 x := rfl

lemma getNum_cons_succ (x : Object) (rest : List Object) (i : Nat) :
    getNum (x :: rest) (i + 1) = getNum rest i := rfl

lemma getNum_nil (i : Nat) : getNum [] i = none := rfl

lemma decode_Tf_eq (opds : List Object) :
    decode "Tf" opds =
      match opds.get? 0, getNum opds 1 with
      | some (.name nm), some size => .ok (.SetTextFontAndSize nm size)
      | _, _ => .panic := rfl

lemma decode_Tc_eq (opds : List Object) :
    decode "Tc" opds =
      match getNum opds 0 with
      | some spacing => .ok (.SetCharacterSpacing spacing)
      | none => .err .OperandType := rfl

lemma decode_Tw_eq (opds : List Object) :
    decode "Tw" opds =
      match getNum opds 0 with
      | some spacing => .ok (.SetWordSpacing spacing)
      | none => .err .OperandType := rfl

lemma decode_Tm_eq (opds : List Object) :
    decode "Tm" opds =
      match getNum opds 0, getNum opds 1, getNum opds 2,
            getNum opds 3, getNum opds 4, getNum opds 5 with
      | some a, some b, some c, some d, some e, some f =>
          .ok (.SetTextMatrixAndTextLineMatrix a b c d e f)
      | _, _, _, _, _, _ => .err .OperandType := rfl

lemma decode_TJ_eq (opds : List Object) :
    decode "TJ" opds =
      match opds.get? 0 with
      | some (.array arr) =>
        match tjBody arr with
        | .ok body => .ok (.ShowTextAllowingIndividualGlyphPositioning body)
        | .error er => .err er
      | none => .ok (.ShowTextAllowingIndividualGlyphPositioning [])
      | some _ => .err .OperandType := rfl

lemma decode_TJ_array (arr : List Object) :
    decode "TJ" [.array arr] =
      match tjBody arr with
      | .ok body => .ok (.ShowTextAllowingIndividualGlyphPositioning body)
      | .error er => .err er := rfl

lemma decode_Tj_eq (opds : List Object) :
    decode "Tj" opds =
      match opds.get? 0 with
      | some (.string bytes _) =>
        match from_utf8 bytes with
        | .ok body => .ok (.ShowText body)
        | .error er => .err er
      | _ => .err .OperandType := rfl

lemma decode_Tj_string (bs : Bytes) (fmt : StringFormat) :
    decode "Tj" [.string bs fmt] =
      match from_utf8 bs with
      | .ok body => .ok (.ShowText body)
      | .error er => .err er := rfl

lemma decode_Td_eq (opds : List Object) :
    decode "Td" opds =
      match getNum opds 0, getNum opds 1 with
      | some tx, some ty => .ok (.MoveTextPosition tx ty)
      | _, _ => .panic := rfl

lemma decode_TD_eq (opds : List Object) :
    decode "TD" opds =
      match getNum opds 0, getNum opds 1 with
      | some tx, some ty => .ok (.MoveTextPositionAndSetLeading tx ty)
      | _, _ => .panic := rfl

lemma decode_re_eq (opds : List Object) :
    decode "re" opds =
      match getNum opds 0, getNum opds 1, getNum opds 2, getNum opds 3 with
      | some x, some y, some w, some h => .ok (.AppendRectangleToPath x y w h)
      | _, _, _, _ => .err .OperandType := rfl

lemma from_utf8_cases (bs : Bytes) :
    from_utf8 bs = .ok bs ∨ from_utf8 bs = .error (.Utf8 bs) := by
  unfold from_utf8
  split_ifs <;> simp

lemma tjElement_not_missing (e : Object) :
    tjElement e ≠ .error .MissingOperands := by
  cases e <;> simp [tjElement]
  rename_i bs fmt
  rcases from_utf8_cases bs with hf | hf <;> rw [hf] <;> simp

lemma tjBody_not_missing (arr : List Object) :
    tjBody arr ≠ .error .MissingOperands := by
  induction arr with
  | nil => simp [tjBody]
  | cons e rest ih =>
    simp only [tjBody]
    cases he : tjElement e with
    | error er =>
      have hne := tjElement_not_missing e
      rw [he] at hne
      simpa using hne
    | ok s =>
      cases hb : tjBody rest with
      | error er =>
        rw [hb] at ih
        simpa using ih
      | ok ss => simp

lemma decode_unknown (op : String) (opds : List Object)
    (h : op ∉ knownOperators) :
    decode op opds = .err (.UnknownOperator op) := by
  simp only [knownOperators, List.mem_cons, List.not_mem_nil, or_false,
    not_or] at h
  obtain ⟨h1, h2, h3, h4, h5, h6, h7, h8, h9, h10, h11, h12, h13, h14, h15,
    h16, h17, h18, h19, h20, h21, h22, h23, h24⟩ := h
  unfold decode
  rw [if_neg h1, if_neg h2, if_neg h3, if_neg h4, if_neg h5, if_neg h6,
    if_neg h7, if_neg h8, if_neg h9, if_neg h10, if_neg h11, if_neg h12,
    if_neg h13, if_neg h14, if_neg h15, if_neg h16, if_neg h17, if_neg h18,
    if_neg h19, if_neg h20, if_neg h21, if_neg h22, if_neg h23, if_neg h24]

lemma noMissing_Tf (opds : List Object) :
    isMissingOperandsErr (decode "Tf" opds) = false := by
  rw [decode_Tf_eq]
  rcases h0 : opds.get? 0 with _ | x
  · rfl
  · cases x <;> cases h1 : getNum opds 1 <;> rfl

lemma noMissing_Tc (opds : List Object) :
    isMissingOperandsErr (decode "Tc" opds) = false := by
  rw [decode_Tc_eq]
  cases h0 : getNum opds 0 <;> rfl

lemma noMissing_Tw (opds : List Object) :
    isMissingOperandsErr (decode "Tw" opds) = false := by
  rw [decode_Tw_eq]
  cases h0 : getNum opds 0 <;> rfl

lemma noMissing_Tm (opds : List Object) :
    isMissingOperandsErr (decode "Tm" opds) = false := by
  rw [decode_Tm_eq]
  cases h0 : getNum opds 0 <;> cases h1 : getNum opds 1 <;>
    cases h2 : getNum opds 2 <;> cases h3 : getNum opds 3 <;>
    cases h4 : getNum opds 4 <;> cases h5 : getNum opds 5 <;> rfl

lemma noMissing_TJ (opds : List Object) :
    isMissingOperandsErr (decode "TJ" opds) = false := by
  rw [decode_TJ_eq]
  rcases h0 : opds.get? 0 with _ | x
  · rfl
  · cases x <;> try rfl
    rename_i arr
    show isMissingOperandsErr
      (match tjBody arr with
       | .ok body => .ok (.ShowTextAllowingIndividualGlyphPositioning body)
       | .error er => .err er) = false
    cases hb : tjBody arr with
    | ok body => rfl
    | error er =>
      cases er <;> first | rfl | exact absurd hb (tjBody_not_missing arr)

lemma noMissing_Tj (opds : List Object) :
    isMissingOperandsErr (decode "Tj" opds) = false := by
  rw [decode_Tj_eq]
  rcases h0 : opds.get? 0 with _ | x
  · rfl
  · cases x <;> try rfl
    rename_i bs fmt
    show isMissingOperandsErr
      (match from_utf8 bs with
       | .ok body => .ok (.ShowText body)
       | .error er => .err er) = false
    rcases from_utf8_cases bs with hf | hf <;> rw [hf] <;> rfl

lemma noMissing_Td (opds : List Object) :
    isMissingOperandsErr (decode "Td" opds) = false := by
  rw [decode_Td_eq]
  cases h0 : getNum opds 0 <;> cases h1 : getNum opds 1 <;> rfl

lemma noMissing_TD (opds : List Object) :
    isMissingOperandsErr (decode "TD" opds) = false := by
  rw [decode_TD_eq]
  cases h0 : getNum opds 0 <;> cases h1 : getNum opds 1 <;> rfl

lemma noMissing_re (opds : List Object) :
    isMissingOperandsErr (decode "re" opds) = false := by
  rw [decode_re_eq]
  cases h0 : getNum opds 0 <;> cases h1 : getNum opds 1 <;>
    cases h2 : getNum opds 2 <;> cases h3 : getNum opds 3 <;> rfl

/-- C2 counterexample: the claim asserts that a too-short or wrong-shaped
operand list always yields the `OperandType` (or arity) error, naming `Tf`,
`Td` and `TD` in particular — but `Tf` with one operand (one fewer than
required) aborts the process (`unimplemented!()`), returning neither
`OperandType` nor `MissingOperands`; and `TJ` with an absent operand
succeeds with an empty body instead of erroring. -/
theorem C2_malformed_counterexample :
    isPanicRes (decode "Tf" [.name [70, 49]]) = true ∧
    isOperandTypeErr (decode "Tf" [.name [70, 49]]) = false ∧
    isMissingOperandsErr (decode "Tf" [.name [70, 49]]) = false ∧
    decode "TJ" [] = .ok (.ShowTextAllowingIndividualGlyphPositioning []) ∧
    isOperandTypeErr (decode "TJ" []) = false ∧
    isMissingOperandsErr (decode "TJ" []) = false := by decide

/-- C2 (amended): for `Tc`, `Tw`, `Tm`, `re`, `Tj` — and `TJ` when its first
operand is present but not an array — a missing required operand or a
wrong-shaped operand at a required position yields `OperandType`, and never a
variant with a default or zero field; but `Tf`, `Td` and `TD` abort the
process (`unimplemented!()`/`todo!()`) on such inputs instead of returning an
error, and `TJ` with an absent operand succeeds with an empty body. -/
theorem C2_malformed_amended :
    (∀ opds, getNum opds 0 = none → decode "Tc" opds = .err .OperandType) ∧
    (∀ opds, getNum opds 0 = none → decode "Tw" opds = .err .OperandType) ∧
    (∀ opds, getNum opds 0 = none ∨ getNum opds 1 = none ∨
      getNum opds 2 = none ∨ getNum opds 3 = none ∨ getNum opds 4 = none ∨
      getNum opds 5 = none → decode "Tm" opds = .err .OperandType) ∧
    (∀ opds, getNum opds 0 = none ∨ getNum opds 1 = none ∨
      getNum opds 2 = none ∨ getNum opds 3 = none →
      decode "re" opds = .err .OperandType) ∧
    (∀ opds x, opds.get? 0 = some x → isStringObj x = false →
      decode "Tj" opds = .err .OperandType) ∧
    (∀ opds, opds.get? 0 = none → decode "Tj" opds = .err .OperandType) ∧
    (∀ opds x, opds.get? 0 = some x → isArrayObj x = false →
      decode "TJ" opds = .err .OperandType) ∧
    (∀ opds, getNum opds 1 = none → decode "Tf" opds = .panic) ∧
    (∀ opds x, opds.get? 0 = some x → isNameObj x = false →
      decode "Tf" opds = .panic) ∧
    (∀ opds, opds.get? 0 = none → decode "Tf" opds = .panic) ∧
    (∀ opds, getNum opds 0 = none ∨ getNum opds 1 = none →
      decode "Td" opds = .panic) ∧
    (∀ opds, getNum opds 0 = none ∨ getNum opds 1 = none →
      decode "TD" opds = .panic) ∧
    decode "TJ" [] = .ok (.ShowTextAllowingIndividualGlyphPositioning []) := by
  refine ⟨?_, ?_, ?_, ?_, ?_, ?_, ?_, ?_, ?_, ?_, ?_, ?_, by decide⟩
  · intro opds h
    rw [decode_Tc_eq, h]
  · intro opds h
    rw [decode_Tw_eq, h]
  · intro opds h
    rw [decode_Tm_eq]
    rcases h with h | h | h | h | h | h <;>
      cases h0 : getNum opds 0 <;> cases h1 : getNum opds 1 <;>
      cases h2 : getNum opds 2 <;> cases h3 : getNum opds 3 <;>
      cases h4 : getNum opds 4 <;> cases h5 : getNum opds 5 <;>
      first | rfl | simp_all
  · intro opds h
    rw [decode_re_eq]
    rcases h with h | h | h | h <;>
      cases h0 : getNum opds 0 <;> cases h1 : getNum opds 1 <;>
      cases h2 : getNum opds 2 <;> cases h3 : getNum opds 3 <;>
      first | rfl | simp_all
  · intro opds x h hns
    rw [decode_Tj_eq, h]
    cases x <;> first | rfl | simp_all [isStringObj]
  · intro opds h
    rw [decode_Tj_eq, h]
  · intro opds x h hna
    rw [decode_TJ_eq, h]
    cases x <;> first | rfl | simp_all [isArrayObj]
  · intro opds h
    rw [decode_Tf_eq, h]
    rcases h0 : opds.get? 0 with _ | x
    · rfl
    · cases x <;> rfl
  · intro opds x h hnn
    rw [decode_Tf_eq, h]
    cases x <;> first | rfl | simp_all [isNameObj]
  · intro opds h
    rw [decode_Tf_eq, h]
  · intro opds h
    rw [decode_Td_eq]
    rcases h with h | h <;>
      cases h0 : getNum opds 0 <;> cases h1 : getNum opds 1 <;>
      first | rfl | simp_all
  · intro opds h
    rw [decode_TD_eq]
    rcases h with h | h <;>
      cases h0 : getNum opds 0 <;> cases h1 : getNum opds 1 <;>
      first | rfl | simp_all

/-- C2 witness: each amended conjunct applied at a concrete malformed
input. -/
theorem C2_malformed_witness :
    decode "Tc" [] = .err .OperandType ∧
    decode "Tw" [.name [65]] = .err .OperandType ∧
    decode "Tm" [.integer 1] = .err .OperandType ∧
    decode "re" [] = .err .OperandType ∧
    decode "Tj" [.integer 7] = .err .OperandType ∧
    decode "Tj" [] = .err .OperandType ∧
    decode "TJ" [.integer 7] = .err .OperandType ∧
    decode "Tf" [.name [70, 49]] = .panic ∧
    decode "Tf" [.integer 1, .integer 2] = .panic ∧
    decode "Tf" [] = .panic ∧
    decode "Td" [.integer 1] = .panic ∧
    decode "TD" [] = .panic := by
  obtain ⟨htc, htw, htm, hre, htjS, htjN, htJ, htf1, htf2, htf3, htd, htD, -⟩ :=
    C2_malformed_amended
  exact ⟨htc [] rfl, htw _ rfl, htm _ (Or.inr (Or.inl rfl)),
    hre [] (Or.inl rfl), htjS _ _ rfl rfl, htjN [] rfl, htJ _ _ rfl rfl,
    htf1 _ rfl, htf2 _ _ rfl rfl, htf3 [] rfl, htd _ (Or.inr rfl),
    htD [] (Or.inl rfl)⟩

/-- C3: an operator name absent from the decoder's contract table yields
`UnknownOperator` carrying that name, for any operand list. -/
theorem C3_unknown_operator (op : String) (opds : List Object)
    (h : op ∉ knownOperators) :
    decode op opds = .err (.UnknownOperator op) :=
  decode_unknown op opds h

/-- C3 witness: `"Zz"` is not in the table and decodes — with an empty
operand list — to `UnknownOperator("Zz")`. -/
theorem C3_unknown_operator_witness :
    "Zz" ∉ knownOperators ∧ decode "Zz" [] = .err (.UnknownOperator "Zz") :=
  ⟨by decide, C3_unknown_operator "Zz" [] (by decide)⟩

/-- C9: no execution path of the decoder constructs the `MissingOperands`
error: for every operator name and operand list the outcome is never
`Err(MissingOperands)`. -/
theorem C9_no_missing_operands :
    ∀ (op : String) (opds : List Object),
      isMissingOperandsErr (decode op opds) = false := by
  intro op opds
  by_cases hk : op ∈ knownOperators
  · simp only [knownOperators, List.mem_cons, List.not_mem_nil,
      or_false] at hk
    obtain rfl | rfl | rfl | rfl | rfl | rfl | rfl | rfl | rfl | rfl | rfl |
      rfl | rfl | rfl | rfl | rfl | rfl | rfl | rfl | rfl | rfl | rfl | rfl |
      rfl := hk
    · rfl
    · rfl
    · rfl
    · rfl
    · rfl
    · rfl
    · rfl
    · exact noMissing_Tf opds
    · exact noMissing_Tc opds
    · exact noMissing_Tw opds
    · exact noMissing_Tm opds
    · exact noMissing_TJ opds
    · exact noMissing_Tj opds
    · rfl
    · rfl
    · exact noMissing_Td opds
    · exact noMissing_TD opds
    · rfl
    · exact noMissing_re opds
    · rfl
    · rfl
    · rfl
    · rfl
    · rfl
  · rw [decode_unknown op opds hk]
    rfl

/-- C6: the numeric accessor `to_f64` yields the float64 value for both the
`Integer` shape (converted with `as f64`) and the `Real` shape (passed
through), and yields `None` — not an error — for every other operand shape;
being a Lean function of its argument it has no side effects. -/
theorem C6_to_f64_contract :
    (∀ i : Int, to_f64 (.integer i) = some (.fromInt i)) ∧
    (∀ r : F64, to_f64 (.real r) = some r) ∧
    to_f64 .null = none ∧
    (∀ b : Bool, to_f64 (.boolean b) = none) ∧
    (∀ bs : Bytes, to_f64 (.name bs) = none) ∧
    (∀ (bs : Bytes) (fmt : StringFormat), to_f64 (.string bs fmt) = none) ∧
    (∀ elems : List Object, to_f64 (.array elems) = none) :=
  ⟨fun _ => rfl, fun _ => rfl, rfl, fun _ => rfl, fun _ => rfl,
   fun _ _ => rfl, fun _ => rfl⟩

/-- C7: decoding is deterministic and pure — the same `(operator, operands)`
pair always decodes to the same result, and in a stream each instruction's
result is a function of that instruction alone: decoding distributes over the
stream elementwise, so no instruction's decoding affects any other's. -/
theorem C7_decode_pure :
    (∀ (op : String) (opds : List Object), decode op opds = decode op opds) ∧
    (∀ (pre : List Instruction) (ins : Instruction) (post : List Instruction),
      decodeAll (pre ++ ins :: post) =
        decodeAll pre ++ decode ins.1 ins.2 :: decodeAll post) := by
  refine ⟨fun _ _ => rfl, fun pre ins post => ?_⟩
  simp [decodeAll]

/-- C8: the two-instruction stream `Tf /F1 12` then `Tj (Hello)` decodes to
exactly `[SetTextFontAndSize{name: "F1", size: 12.0}, ShowText{body:
"Hello"}]` in that order (`"F1"` is bytes `[70, 49]`, `"Hello"` is bytes
`[72, 101, 108, 108, 111]`, and `12.0` is the float64 of integer 12). -/
theorem C8_stream_example :
    decodeAll
        [("Tf", [.name [70, 49], .integer 12]),
         ("Tj", [.string [72, 101, 108, 108, 111] .literal])] =
      [.ok (.SetTextFontAndSize [70, 49] (.fromInt 12)),
       .ok (.ShowText [72, 101, 108, 108, 111])] := by decide

lemma tjBody_wellFormed (arr : List Object) (h : tjWellFormed arr = true) :
    tjBody arr = .ok (tjSpecBody arr) := by
  induction arr with
  | nil => rfl
  | cons e rest ih =>
    cases e with
    | string bs fmt =>
      simp only [tjWellFormed, Bool.and_eq_true] at h
      obtain ⟨hv, hr⟩ := h
      simp only [tjBody, tjElement, from_utf8, if_pos hv, ih hr, tjSpecBody]
    | real r =>
      simp only [tjWellFormed] at h
      simp only [tjBody, tjElement, ih h, tjSpecBody, List.nil_append]
    | integer i =>
      simp only [tjWellFormed] at h
      simp only [tjBody, tjElement, ih h, tjSpecBody, List.nil_append]
    | null => simp [tjWellFormed] at h
    | boolean b => simp [tjWellFormed] at h
    | name nm => simp [tjWellFormed] at h
    | array elems => simp [tjWellFormed] at h

lemma tjBody_invalid (arr : List Object)
    (ha : allStringOrNumber arr = true) (hi : hasInvalidString arr = true) :
    ∃ bad, utf8Valid bad = false ∧ tjBody arr = .error (.Utf8 bad) := by
  induction arr with
  | nil => simp [hasInvalidString] at hi
  | cons e rest ih =>
    simp only [allStringOrNumber, List.all_cons, Bool.and_eq_true] at ha
    obtain ⟨he, hrest⟩ := ha
    have hrest' : allStringOrNumber rest = true := hrest
    cases e with
    | string bs fmt =>
      by_cases hv : utf8Valid bs = true
      · have hi' : hasInvalidString rest = true := by
          simp only [hasInvalidString, List.any_cons, Bool.or_eq_true] at hi
          rcases hi with h | h
          · rw [hv] at h
            simp at h
          · simpa [hasInvalidString] using h
        obtain ⟨bad, hb, he2⟩ := ih hrest' hi'
        refine ⟨bad, hb, ?_⟩
        simp only [tjBody, tjElement, from_utf8, if_pos hv, he2]
      · refine ⟨bs, by simpa using hv, ?_⟩
        simp only [tjBody, tjElement, from_utf8, if_neg hv]
    | real r =>
      have hi' : hasInvalidString rest = true := by
        simpa [hasInvalidString] using hi
      obtain ⟨bad, hb, he2⟩ := ih hrest' hi'
      exact ⟨bad, hb, by simp only [tjBody, tjElement, he2]⟩
    | integer i =>
      have hi' : hasInvalidString rest = true := by
        simpa [hasInvalidString] using hi
      obtain ⟨bad, hb, he2⟩ := ih hrest' hi'
      exact ⟨bad, hb, by simp only [tjBody, tjElement, he2]⟩
    | null => simp [isStringOrNumber] at he
    | boolean b => simp [isStringOrNumber] at he
    | name nm => simp [isStringOrNumber] at he
    | array elems => simp [isStringOrNumber] at he

/-- C4: a `TJ` instruction whose first operand is an array of string/number
elements (all strings valid UTF-8) decodes to
`ShowTextAllowingIndividualGlyphPositioning` whose body is the in-order
concatenation of the string elements' bytes, numeric elements contributing
no text; `[Array([])]` and the empty operand list both give an empty body,
and `[Array([String("A"), Integer(5), String("B")])]` gives body `"AB"`
(bytes `[65, 66]`). -/
theorem C4_tj_concatenation :
    (∀ arr, tjWellFormed arr = true →
      decode "TJ" [.array arr] =
        .ok (.ShowTextAllowingIndividualGlyphPositioning (tjSpecBody arr))) ∧
    decode "TJ" [.array []] =
      .ok (.ShowTextAllowingIndividualGlyphPositioning []) ∧
    decode "TJ" [] = .ok (.ShowTextAllowingIndividualGlyphPositioning []) ∧
    decode "TJ" [.array [.string [65] .literal, .integer 5,
        .string [66] .literal]] =
      .ok (.ShowTextAllowingIndividualGlyphPositioning [65, 66]) := by
  refine ⟨?_, by decide, by decide, by decide⟩
  intro arr h
  rw [decode_TJ_array, tjBody_wellFormed arr h]

/-- C4 witness: the array `[String("A"), Integer(5), String("B")]` is
well formed and the general concatenation statement applies to it. -/
theorem C4_tj_concatenation_witness :
    tjWellFormed [.string [65] .literal, .integer 5, .string [66] .literal]
        = true ∧
    decode "TJ" [.array [.string [65] .literal, .integer 5,
        .string [66] .literal]] =
      .ok (.ShowTextAllowingIndividualGlyphPositioning
        (tjSpecBody [.string [65] .literal, .integer 5,
          .string [66] .literal])) :=
  ⟨by decide, C4_tj_concatenation.1 _ (by decide)⟩

/-- C5: `Tj` decodes its string operand as UTF-8 — valid bytes pass through
byte-for-byte, invalid bytes yield the `Utf8` error carrying those bytes
(never a replacement-character or truncated result); and a `TJ` array of
string/number elements containing an invalid string element yields a `Utf8`
error rather than any decoded text. -/
theorem C5_utf8_handling :
    (∀ (bs : Bytes) (fmt : StringFormat),
      decode "Tj" [.string bs fmt] =
        if utf8Valid bs then .ok (.ShowText bs) else .err (.Utf8 bs)) ∧
    (∀ arr, allStringOrNumber arr = true → hasInvalidString arr = true →
      ∃ bad, utf8Valid bad = false ∧
        decode "TJ" [.array arr] = .err (.Utf8 bad)) := by
  constructor
  · intro bs fmt
    rw [decode_Tj_string]
    unfold from_utf8
    by_cases hv : utf8Valid bs = true <;> simp [hv]
  · intro arr ha hi
    obtain ⟨bad, hb, he⟩ := tjBody_invalid arr ha hi
    exact ⟨bad, hb, by rw [decode_TJ_array, he]⟩

/-- C5 witness: the one-element array `[String(0xFF)]` is all
strings/numbers, contains an invalid string, and the theorem yields its
`Utf8` error. -/
theorem C5_utf8_handling_witness :
    allStringOrNumber [.string [255] .literal] = true ∧
    hasInvalidString [.string [255] .literal] = true ∧
    ∃ bad, utf8Valid bad = false ∧
      decode "TJ" [.array [.string [255] .literal]] = .err (.Utf8 bad) :=
  ⟨by decide, by decide, C5_utf8_handling.2 _ (by decide) (by decide)⟩

/-- C1: for every operator in the contract table, decoding with exactly the
required operand shapes returns `Ok` of the corresponding variant whose
fields equal the input operand values — numeric operands via `to_f64`
(pass-through for `Real`, `as f64` conversion for `Integer`), name and
string bytes byte-for-byte, `TJ` arrays via the in-order concatenation of
their string elements. The pass-through markers (`BDC`, `EMC`, `CS`, `cs`,
`scn`) take any operands; the no-operand markers are shown at the empty
operand list. -/
theorem C1_contract_success :
    (∀ opds, decode "BDC" opds = .ok .BeginMarkedContentSequenceWithPropertyList) ∧
    (∀ opds, decode "EMC" opds = .ok .EndMarkedContentSequence) ∧
    decode "BT" [] = .ok .BeginTextObject ∧
    decode "ET" [] = .ok .EndTextObject ∧
    (∀ opds, decode "CS" opds = .ok .SetColorSpaceForStrokingOperations) ∧
    (∀ opds, decode "cs" opds = .ok .SetColorSpaceForNonstrokingOperations) ∧
    (∀ opds, decode "scn" opds = .ok .SetColorForNonstrokingOperations) ∧
    (∀ (nm : Bytes) (x : Object) (v : F64), to_f64 x = some v →
      decode "Tf" [.name nm, x] = .ok (.SetTextFontAndSize nm v)) ∧
    (∀ (x : Object) (v : F64), to_f64 x = some v →
      decode "Tc" [x] = .ok (.SetCharacterSpacing v)) ∧
    (∀ (x : Object) (v : F64), to_f64 x = some v →
      decode "Tw" [x] = .ok (.SetWordSpacing v)) ∧
    (∀ (x1 x2 x3 x4 x5 x6 : Object) (v1 v2 v3 v4 v5 v6 : F64),
      to_f64 x1 = some v1 → to_f64 x2 = some v2 → to_f64 x3 = some v3 →
      to_f64 x4 = some v4 → to_f64 x5 = some v5 → to_f64 x6 = some v6 →
      decode "Tm" [x1, x2, x3, x4, x5, x6] =
        .ok (.SetTextMatrixAndTextLineMatrix v1 v2 v3 v4 v5 v6)) ∧
    (∀ arr, tjWellFormed arr = true →
      decode "TJ" [.array arr] =
        .ok (.ShowTextAllowingIndividualGlyphPositioning (tjSpecBody arr))) ∧
    (∀ (bs : Bytes) (fmt : StringFormat), utf8Valid bs = true →
      decode "Tj" [.string bs fmt] = .ok (.ShowText bs)) ∧
    decode "q" [] = .ok .SaveGraphicsState ∧
    decode "Q" [] = .ok .RestoreGraphicsState ∧
    (∀ (x y : Object) (vx vy : F64), to_f64 x = some vx → to_f64 y = some vy →
      decode "Td" [x, y] = .ok (.MoveTextPosition vx vy)) ∧
    (∀ (x y : Object) (vx vy : F64), to_f64 x = some vx → to_f64 y = some vy →
      decode "TD" [x, y] = .ok (.MoveTextPositionAndSetLeading vx vy)) ∧
    decode "T*" [] = .ok .MoveToStartOfNextLine ∧
    (∀ (x1 x2 x3 x4 : Object) (v1 v2 v3 v4 : F64),
      to_f64 x1 = some v1 → to_f64 x2 = some v2 → to_f64 x3 = some v3 →
      to_f64 x4 = some v4 →
      decode "re" [x1, x2, x3, x4] =
        .ok (.AppendRectangleToPath v1 v2 v3 v4)) ∧
    decode "f" [] = .ok .FillPathUsingNonzeroWindingNumberRule ∧
    decode "F" [] = .ok .FillPathUsingNonzeroWindingNumberRuleObsolete ∧
    decode "f*" [] = .ok .FillPathUsingEvenOddRule ∧
    decode "W" [] = .ok .SetClippingPathUsingNonzeroWindingNumberRule ∧
    decode "n" [] = .ok .EndPathWithoutFillingOrStroking := by
  refine ⟨fun _ => rfl, fun _ => rfl, rfl, rfl, fun _ => rfl, fun _ => rfl,
    fun _ => rfl, ?_, ?_, ?_, ?_, ?_, ?_, rfl, rfl, ?_, ?_, rfl, ?_,
    rfl, rfl, rfl, rfl, rfl⟩
  · intro nm x v h
    rw [decode_Tf_eq]
    show (match ([Object.name nm, x].get? 0), getNum [Object.name nm, x] 1 with
      | some (.name nm), some size => DResult.ok (.SetTextFontAndSize nm size)
      | _, _ => .panic) = _
    rw [show getNum [Object.name nm, x] 1 = to_f64 x from rfl, h]
    rfl
  · intro x v h
    rw [decode_Tc_eq, show getNum [x] 0 = to_f64 x from rfl, h]
  · intro x v h
    rw [decode_Tw_eq, show getNum [x] 0 = to_f64 x from rfl, h]
  · intro x1 x2 x3 x4 x5 x6 v1 v2 v3 v4 v5 v6 h1 h2 h3 h4 h5 h6
    rw [decode_Tm_eq,
      show getNum [x1, x2, x3, x4, x5, x6] 0 = to_f64 x1 from rfl,
      show getNum [x1, x2, x3, x4, x5, x6] 1 = to_f64 x2 from rfl,
      show getNum [x1, x2, x3, x4, x5, x6] 2 = to_f64 x3 from rfl,
      show getNum [x1, x2, x3, x4, x5, x6] 3 = to_f64 x4 from rfl,
      show getNum [x1, x2, x3, x4, x5, x6] 4 = to_f64 x5 from rfl,
      show getNum [x1, x2, x3, x4, x5, x6] 5 = to_f64 x6 from rfl,
      h1, h2, h3, h4, h5, h6]
  · intro arr h
    rw [decode_TJ_array, tjBody_wellFormed arr h]
  · intro bs fmt h
    rw [decode_Tj_string]
    unfold from_utf8
    rw [if_pos h]
  · intro x y vx vy hx hy
    rw [decode_Td_eq, show getNum [x, y] 0 = to_f64 x from rfl,
      show getNum [x, y] 1 = to_f64 y from rfl, hx, hy]
  · intro x y vx vy hx hy
    rw [decode_TD_eq, show getNum [x, y] 0 = to_f64 x from rfl,
      show getNum [x, y] 1 = to_f64 y from rfl, hx, hy]
  · intro x1 x2 x3 x4 v1 v2 v3 v4 h1 h2 h3 h4
    rw [decode_re_eq,
      show getNum [x1, x2, x3, x4] 0 = to_f64 x1 from rfl,
      show getNum [x1, x2, x3, x4] 1 = to_f64 x2 from rfl,
      show getNum [x1, x2, x3, x4] 2 = to_f64 x3 from rfl,
      show getNum [x1, x2, x3, x4] 3 = to_f64 x4 from rfl,
      h1, h2, h3, h4]

/-- C1 witness: every hypothesis-bearing conjunct of the contract theorem
instantiated at concrete operands — `Tf /F1 12`, `Tc 1.5bits`, `Tw 2`,
`Tm 1 2 3 4 5 6`, `TJ [(A) 5 (B)]`, `Tj (Hi)`, `Td 1 2`, `TD 1 2`,
`re 1 2 3 4`. -/
theorem C1_contract_success_witness :
    decode "Tf" [.name [70, 49], .integer 12] =
      .ok (.SetTextFontAndSize [70, 49] (.fromInt 12)) ∧
    decode "Tc" [.real (.fromBits 5)] =
      .ok (.SetCharacterSpacing (.fromBits 5)) ∧
    decode "Tw" [.integer 2] = .ok (.SetWordSpacing (.fromInt 2)) ∧
    decode "Tm" [.integer 1, .integer 2, .integer 3, .integer 4, .integer 5,
        .integer 6] =
      .ok (.SetTextMatrixAndTextLineMatrix (.fromInt 1) (.fromInt 2)
        (.fromInt 3) (.fromInt 4) (.fromInt 5) (.fromInt 6)) ∧
    decode "TJ" [.array [.string [65] .literal, .integer 5,
        .string [66] .literal]] =
      .ok (.ShowTextAllowingIndividualGlyphPositioning
        (tjSpecBody [.string [65] .literal, .integer 5,
          .string [66] .literal])) ∧
    decode "Tj" [.string [72, 105] .literal] = .ok (.ShowText [72, 105]) ∧
    decode "Td" [.integer 1, .integer 2] =
      .ok (.MoveTextPosition (.fromInt 1) (.fromInt 2)) ∧
    decode "TD" [.integer 1, .integer 2] =
      .ok (.MoveTextPositionAndSetLeading (.fromInt 1) (.fromInt 2)) ∧
    decode "re" [.integer 1, .integer 2, .integer 3, .integer 4] =
      .ok (.AppendRectangleToPath (.fromInt 1) (.fromInt 2) (.fromInt 3)
        (.fromInt 4)) := by
  obtain ⟨-, -, -, -, -, -, -, htf, htc, htw, htm, htj2, htj, -, -, htd,
    htD, -, hre, -, -, -, -, -⟩ := C1_contract_success
  exact ⟨htf _ _ _ rfl, htc _ _ rfl, htw _ _ rfl,
    htm _ _ _ _ _ _ _ _ _ _ _ _ rfl rfl rfl rfl rfl rfl,
    htj2 _ (by decide), htj _ _ (by decide),
    htd _ _ _ _ rfl rfl, htD _ _ _ _ rfl rfl,
    hre _ _ _ _ _ _ _ _ rfl rfl rfl rfl⟩

/-- C10: every payload-free or pass-through operator (`BDC`, `EMC`, `BT`,
`ET`, `CS`, `cs`, `scn`, `q`, `Q`, `T*`, `f`, `F`, `f*`, `W`, `n`) decodes to
its marker variant for every operand list whatsoever — surplus or
wrong-shaped operands are never an error for these operators. -/
theorem C10_marker_operators :
    (∀ opds, decode "BDC" opds = .ok .BeginMarkedContentSequenceWithPropertyList) ∧
    (∀ opds, decode "EMC" opds = .ok .EndMarkedContentSequence) ∧
    (∀ opds, decode "BT" opds = .ok .BeginTextObject) ∧
    (∀ opds, decode "ET" opds = .ok .EndTextObject) ∧
    (∀ opds, decode "CS" opds = .ok .SetColorSpaceForStrokingOperations) ∧
    (∀ opds, decode "cs" opds = .ok .SetColorSpaceForNonstrokingOperations) ∧
    (∀ opds, decode "scn" opds = .ok .SetColorForNonstrokingOperations) ∧
    (∀ opds, decode "q" opds = .ok .SaveGraphicsState) ∧
    (∀ opds, decode "Q" opds = .ok .RestoreGraphicsState) ∧
    (∀ opds, decode "T*" opds = .ok .MoveToStartOfNextLine) ∧
    (∀ opds, decode "f" opds = .ok .FillPathUsingNonzeroWindingNumberRule) ∧
    (∀ opds, decode "F" opds = .ok .FillPathUsingNonzeroWindingNumberRuleObsolete) ∧
    (∀ opds, decode "f*" opds = .ok .FillPathUsingEvenOddRule) ∧
    (∀ opds, decode "W" opds = .ok .SetClippingPathUsingNonzeroWindingNumberRule) ∧
    (∀ opds, decode "n" opds = .ok .EndPathWithoutFillingOrStroking) :=
  ⟨fun _ => rfl, fun _ => rfl, fun _ => rfl, fun _ => rfl, fun _ => rfl,
   fun _ => rfl, fun _ => rfl, fun _ => rfl, fun _ => rfl, fun _ => rfl,
   fun _ => rfl, fun _ => rfl, fun _ => rfl, fun _ => rfl, fun _ => rfl⟩
